import Mathlib

/-!
Verification of the fast_api_bootstrap repository: a shallow embedding in
Lean 4 of its lifecycle manager (src/main/main_setup.py), its pydantic
configuration validators (src/core/fast_api_setup.py), and the
application-factory CORS wiring, together with theorems settling the
specification's claims about them.
-/

set_option maxRecDepth 4096

/-! ## Python string primitives

Structural embeddings of the Python string methods the source uses
(str.lower, str.upper, str.split, str.strip, str.startswith, the in
operator on characters), defined by structural recursion over the
character list so that they evaluate inside the kernel.
-/

/-- Python str.lower: lowercase every character. -/
def str_lower (s : String) : String := ⟨s.data.map Char.toLower⟩

/-- Python str.upper: uppercase every character. -/
def str_upper (s : String) : String := ⟨s.data.map Char.toUpper⟩

/-- Core of str.split on a single separator character: the empty string
yields one empty field, and every separator occurrence opens a new field. -/
def splitChars (sep : Char) : List Char → List (List Char)
  | [] => [[]]
  | c :: cs =>
    let rest := splitChars sep cs
    if c == sep then [] :: rest
    else
      match rest with
      | r :: rs => (c :: r) :: rs
      | [] => [[c]]

/-- Python str.split with a one-character separator. -/
def str_split (s : String) (sep : Char) : List String :=
  (splitChars sep s.data).map (fun l => ⟨l⟩)

/-- Python str.strip with no argument: drop leading and trailing
whitespace. -/
def str_strip (s : String) : String :=
  ⟨((s.data.dropWhile Char.isWhitespace).reverse.dropWhile
      Char.isWhitespace).reverse⟩

/-- Python str.startswith on a single candidate. -/
def str_starts_with (s pre : String) : Bool := pre.data.isPrefixOf s.data

/-- The Python in operator for a character and a string. -/
def str_contains (s : String) (c : Char) : Bool := s.data.contains c

/-! ## Lifecycle manager (src/main/main_setup.py)

The embedding of FastAPIApplication.lifespan.  A BackgroundTask is opaque
except for an identity (the identity of its run coroutine); a TaskHandle
is the asyncio.Task wrapping that coroutine, carrying the id of the task
it runs and whether cancellation has been requested on it.
-/

/-- A registered background task; it is opaque to the lifecycle manager
except for the identity of its run coroutine. -/
structure BackgroundTask where
  id : Nat
deriving Repr, DecidableEq

/-- A handle to a running concurrent execution (an asyncio.Task): the id of
the coroutine it runs and whether cancellation has been requested. -/
structure TaskHandle where
  taskId : Nat
  cancelRequested : Bool
deriving Repr, DecidableEq

/-- Terminal state of an awaited concurrent execution. -/
inductive TaskOutcome where
  | completed
  | cancelled
  | failed (e : String)
deriving Repr, DecidableEq

/-- asyncio.create_task(task.run()): spawns a fresh handle running the
task's coroutine, with no cancellation requested yet. -/
def create_task (t : BackgroundTask) : TaskHandle :=
  { taskId := t.id, cancelRequested := false }

/-- task_handle.cancel(): requests cancellation on the handle. -/
def cancelHandle (h : TaskHandle) : TaskHandle :=
  { h with cancelRequested := true }

/-- Whether an outcome is a raised error. -/
def TaskOutcome.isFailed : TaskOutcome → Bool
  | .failed _ => true
  | _ => false

/-- asyncio.gather over already-terminal outcomes.  With
return_exceptions=True it returns every outcome (exceptions included) as a
list; with return_exceptions=False the first raised error propagates out of
the gather itself. -/
def gather (return_exceptions : Bool) (outcomes : List TaskOutcome) :
    Except String (List TaskOutcome) :=
  if return_exceptions then .ok outcomes
  else
    match outcomes.find? TaskOutcome.isFailed with
    | some (.failed e) => .error e
    | _ => .ok outcomes

/-- The startup half of FastAPIApplication.lifespan (before yield):
task_handles = [asyncio.create_task(task.run()) for task in self.background_tasks]. -/
def lifespanStartup (background_tasks : List BackgroundTask) : List TaskHandle :=
  background_tasks.map create_task

/-- An environment giving the terminal outcome each coroutine id reaches
once its handle has been cancelled and awaited (a task may complete, honour
the cancellation, or raise). -/
def awaitHandle (env : Nat → TaskOutcome) (h : TaskHandle) : TaskOutcome :=
  env h.taskId

/-- The shutdown half of FastAPIApplication.lifespan (after yield): first
every handle gets task_handle.cancel(), then
await asyncio.gather(*task_handles, return_exceptions=True).
Returns the cancelled handles together with the result of the wait. -/
def lifespanShutdown (env : Nat → TaskOutcome) (task_handles : List TaskHandle) :
    List TaskHandle × Except String (List TaskOutcome) :=
  let cancelled := task_handles.map cancelHandle
  (cancelled, gather true (cancelled.map (awaitHandle env)))

/-! ## Configuration (src/core/fast_api_setup.py)

The pydantic field validators of MainConfig and FastApiConfig, embedded as
total functions.  A validator that raises ValueError is embedded as a
function into Except String; pydantic surfaces the raise as a
ValidationError failing construction of the config.
-/

/-- A pydantic field input that may arrive as a bool or as a string (env
values arrive as strings).  The source's final bool(v) fallback for other
types is unreachable for env-sourced fields and is not modelled. -/
inductive PyValue where
  | pybool (b : Bool)
  | pystr (s : String)
deriving Repr, DecidableEq

/-- First alternative 25[0-5] of the regex octet in ip_pattern. -/
def matchOctet255 : List Char → Bool
  | [c1, c2, c3] => c1 == '2' && c2 == '5' && (decide ('0' ≤ c3) && decide (c3 ≤ '5'))
  | _ => false

/-- Second alternative 2[0-4][0-9] of the regex octet. -/
def matchOctet2xx : List Char → Bool
  | [c1, c2, c3] => c1 == '2' && (decide ('0' ≤ c2) && decide (c2 ≤ '4')) && c3.isDigit
  | _ => false

/-- Third alternative [01]?[0-9][0-9]? of the regex octet: an optional
leading 0 or 1, a digit, and an optional trailing digit. -/
def matchOctetLow : List Char → Bool
  | [c] => c.isDigit
  | [c1, c2] => ((c1 == '0' || c1 == '1') && c2.isDigit) || (c1.isDigit && c2.isDigit)
  | [c1, c2, c3] => (c1 == '0' || c1 == '1') && c2.isDigit && c3.isDigit
  | _ => false

/-- One octet of ip_pattern: 25[0-5]|2[0-4][0-9]|[01]?[0-9][0-9]?. -/
def matchOctet (l : List Char) : Bool :=
  matchOctet255 l || matchOctet2xx l || matchOctetLow l

/-- Drop the final character of a string (the candidate trailing newline
for the regex anchor). -/
def dropLastChar (v : String) : String := ⟨v.data.dropLast⟩

/-- Full match of the body (octet\.){3}octet of ip_pattern against the
whole string: expanded by splitting on the dot, which is faithful because
an octet match never contains a dot, so a full body match is exactly a
decomposition into four dot-separated octet matches. -/
def ip_pattern_core (v : String) : Bool :=
  match str_split v '.' with
  | [a, b, c, d] =>
      matchOctet a.data && matchOctet b.data &&
      matchOctet c.data && matchOctet d.data
  | _ => false

/-- re.match against ip_pattern = body anchored between a leading caret
and a trailing dollar: re.match anchors the body at the start, and
without re.MULTILINE the dollar matches at the end of the string or just
before a newline that ends the string, so the body must cover the whole
string or the whole string minus one trailing newline. -/
def ip_pattern_match (v : String) : Bool :=
  ip_pattern_core v ||
  ((v.data.getLast? == some '\n') && ip_pattern_core (dropLastChar v))

/-- The whitelist of literal hosts shared by both host validators. -/
def valid_hosts : List String := ["localhost", "0.0.0.0", "127.0.0.1"]

/-- MainConfig: host, port, reload, log levels and production flag. -/
structure MainConfig where
  HOST : String
  PORT : Nat
  RELOAD : Bool
  UVICORN_LOG_LEVEL : String
  MAIN_LOG_LEVEL : String
  FASTAPI_LOG_LEVEL : String
  PRODUCTION : Bool
deriving Repr, DecidableEq

namespace MainConfig

/-- MainConfig.validate_host: accept a whitelisted host or an ip_pattern
match, returning the value unchanged; otherwise raise. -/
def validate_host (v : String) : Except String String :=
  if valid_hosts.contains v then .ok v
  else if ip_pattern_match v then .ok v
  else .error ("Invalid HOST: " ++ v ++ ". Must be valid IP address or localhost")

/-- The valid_levels set of MainConfig.validate_log_level. -/
def valid_levels : List String := ["debug", "info", "warning", "error", "critical"]

/-- MainConfig.validate_log_level: lowercase the value, raise when it is
not a valid level, and return the lowercased value. -/
def validate_log_level (v : String) : Except String String :=
  let v_lower := str_lower v
  if valid_levels.contains v_lower then .ok v_lower
  else .error ("Invalid log level: " ++ v)

/-- MainConfig.validate_reload: a bool passes through; a string is truthy
exactly when its lowercase form is one of true, 1, yes, on. -/
def validate_reload : PyValue → Bool
  | .pybool b => b
  | .pystr s => ["true", "1", "yes", "on"].contains (str_lower s)

/-- MainConfig.validate_production: a bool passes through; a string is
truthy exactly when its lowercase form is one of
true, 1, yes, on, false, no. -/
def validate_production : PyValue → Bool
  | .pybool b => b
  | .pystr s => ["true", "1", "yes", "on", "false", "no"].contains (str_lower s)

end MainConfig

/-- FastApiConfig: title, description, version, binding and CORS fields. -/
structure FastApiConfig where
  SERVER_TITLE : String
  DESCRIPTION : String
  VERSION : String
  HOST : String
  PORT : Nat
  CORS_ORIGINS : String
  FASTAPI_LOG_LEVEL : String
deriving Repr, DecidableEq

namespace FastApiConfig

/-- The invalid_chars list of validate_server_title:
less-than, greater-than, double quote (code 34), ampersand and
apostrophe (code 39). -/
def invalid_chars : List Char := ['<', '>', Char.ofNat 34, '&', Char.ofNat 39]

/-- FastApiConfig.validate_server_title: raise when the value is empty or
whitespace-only; strip it; raise when the stripped value contains an
invalid character; return the stripped value. -/
def validate_server_title (v : String) : Except String String :=
  if v == "" || str_strip v == "" then .error "SERVER_TITLE cannot be empty"
  else
    let v1 := str_strip v
    if invalid_chars.any (fun c => str_contains v1 c) then
      .error "SERVER_TITLE contains invalid characters"
    else .ok v1

/-- FastApiConfig.validate_host: identical to MainConfig.validate_host. -/
def validate_host (v : String) : Except String String :=
  if valid_hosts.contains v then .ok v
  else if ip_pattern_match v then .ok v
  else .error ("Invalid HOST: " ++ v ++ ". Must be valid IP address or localhost")

/-- FastApiConfig.validate_cors_origins: the wildcard passes unchanged;
otherwise split on commas, strip each origin, and raise at the first
origin that does not start with http:// or https://; on success return
the original value. -/
def validate_cors_origins (v : String) : Except String String :=
  if v == "*" then .ok v
  else
    let origins := (str_split v ',').map (fun origin => str_strip origin)
    match origins.find?
        (fun origin =>
          !(str_starts_with origin "http://" ||
            str_starts_with origin "https://")) with
    | some origin =>
        .error ("CORS origin must start with http:// or https://: " ++ origin)
    | none => .ok v

/-- The valid_levels list of FastApiConfig.validate_log_level. -/
def fastapi_valid_levels : List String :=
  ["DEBUG", "INFO", "WARNING", "ERROR", "CRITICAL"]

/-- FastApiConfig.validate_log_level: raise when the uppercased value is
not a valid level; return the uppercased value. -/
def validate_log_level (v : String) : Except String String :=
  if fastapi_valid_levels.contains (str_upper v) then .ok (str_upper v)
  else .error ("Invalid log level: " ++ v)

end FastApiConfig

/-! ## Application factory (src/core/fast_api_setup.py, FastApiSetup) -/

/-- The CORS middleware settings app_create installs on the application. -/
structure CORSSettings where
  allow_origins : List String
  allow_credentials : Bool
  allow_methods : List String
  allow_headers : List String
deriving Repr, DecidableEq

/-- The observable shape of the FastAPI application app_create builds:
its metadata and its CORS middleware settings. -/
structure AppModel where
  title : String
  description : String
  version : String
  cors : CORSSettings
deriving Repr, DecidableEq

namespace FastApiSetup

/-- FastApiSetup.get_config, the class-level singleton: the stored
_config is the state (None initially); when it is None the constructor is
run once and its result stored, otherwise the stored instance is returned
with the state untouched.  The constructor FastApiConfig() is passed in as
mk since its result depends on the process environment. -/
def get_config (mk : Unit → FastApiConfig) (state : Option FastApiConfig) :
    FastApiConfig × Option FastApiConfig :=
  match state with
  | none => let c := mk (); (c, some c)
  | some c => (c, some c)

/-- FastApiSetup.app_create on an already-validated config: builds the app
from the config's title, description and version, computes
cors_origins = ["*"] when CORS_ORIGINS is the wildcard and
CORS_ORIGINS.split(',') otherwise, and installs the CORS middleware with
allow_credentials=True, the fixed five-method list, and all headers. -/
def app_create (config : FastApiConfig) : AppModel :=
  let cors_origins :=
    if config.CORS_ORIGINS == "*" then ["*"]
    else str_split config.CORS_ORIGINS ','
  { title := config.SERVER_TITLE
    description := config.DESCRIPTION
    version := config.VERSION
    cors :=
      { allow_origins := cors_origins
        allow_credentials := true
        allow_methods := ["GET", "POST", "PUT", "DELETE", "OPTIONS"]
        allow_headers := ["*"] } }

end FastApiSetup

/-- The full HTTP method set of the CORS collaborator (starlette expands a
wildcard allow_methods to exactly these seven methods). -/
def allHttpMethods : List String :=
  ["DELETE", "GET", "HEAD", "OPTIONS", "PATCH", "POST", "PUT"]

/-- CORS collaborator semantics: a request origin is allowed when the
configured origin list holds the wildcard or that origin. -/
def CORSSettings.allowsOrigin (s : CORSSettings) (origin : String) : Bool :=
  s.allow_origins.contains "*" || s.allow_origins.contains origin

/-- CORS collaborator semantics: a request method is allowed when the
configured method list holds the wildcard or that method. -/
def CORSSettings.allowsMethod (s : CORSSettings) (m : String) : Bool :=
  s.allow_methods.contains "*" || s.allow_methods.contains m

/-! ## Spec-side predicates

Definitions following the specification's words, to be compared with the
embeddings of the source. -/

/-- Decimal digit value of a character. -/
def digitVal (c : Char) : Nat := c.toNat - 48

/-- Numeric value of a string of decimal digits. -/
def decValue (l : List Char) : Nat :=
  l.foldl (fun acc c => 10 * acc + digitVal c) 0

/-- The claim's notion of one octet of a valid IPv4 dotted quad: one to
three decimal digits whose numeric value is at most 255. -/
def specOctet (l : List Char) : Bool :=
  decide (1 ≤ l.length) && decide (l.length ≤ 3) && l.all Char.isDigit &&
  decide (decValue l ≤ 255)

/-- The claim's notion of a valid IPv4 dotted quad: four dot-separated
octets, each in 0-255. -/
def specQuad (v : String) : Bool :=
  ((str_split v '.').length == 4) &&
  (str_split v '.').all (fun p => specOctet p.data)

/-- The claim's host condition: a loopback address (localhost or
127.0.0.1), 0.0.0.0, or a valid IPv4 dotted quad whose four octets are
each in 0-255. -/
def specHostOk (v : String) : Bool :=
  valid_hosts.contains v || specQuad v

/-- The amended host condition: the claim's host condition, or an IPv4
dotted quad followed by one trailing newline, which the dollar anchor of
Python's re accepts. -/
def specHostOkNewline (v : String) : Bool :=
  valid_hosts.contains v ||
  (specQuad v || ((v.data.getLast? == some '\n') && specQuad (dropLastChar v)))

/-! ## Theorems -/

/-- One octet of the source's ip_pattern regex matches exactly the digit
strings of length one to three with numeric value at most 255. -/
theorem matchOctet_iff_specOctet (l : List Char) :
    (matchOctet l = true ↔ specOctet l = true) := by
  match l with
  | [] =>
    simp [matchOctet, matchOctet255, matchOctet2xx, matchOctetLow, specOctet]
  | [c] =>
    simp [matchOctet, matchOctet255, matchOctet2xx, matchOctetLow, specOctet,
      decValue, digitVal, Char.isDigit, Char.toNat, UInt32.le_def, ge_iff_le,
      UInt32.size, BitVec.le_def, UInt32.toNat]
    omega
  | [c1, c2] =>
    simp [matchOctet, matchOctet255, matchOctet2xx, matchOctetLow, specOctet,
      decValue, digitVal, Char.isDigit, Char.toNat, UInt32.le_def,
      Char.ext_iff, UInt32.ext_iff, ge_iff_le, UInt32.size, BitVec.le_def,
      UInt32.toNat]
    omega
  | [c1, c2, c3] =>
    simp [matchOctet, matchOctet255, matchOctet2xx, matchOctetLow, specOctet,
      decValue, digitVal, Char.isDigit, Char.toNat, Char.le_def, UInt32.le_def,
      Char.ext_iff, UInt32.ext_iff, ge_iff_le, UInt32.size, BitVec.le_def,
      UInt32.toNat]
    omega
  | c1 :: c2 :: c3 :: c4 :: rest =>
    simp [matchOctet, matchOctet255, matchOctet2xx, matchOctetLow, specOctet]

/-- The body of ip_pattern fully matches exactly the strings splitting on
dots into four spec octets. -/
theorem ip_pattern_core_eq (v : String) :
    ip_pattern_core v = specQuad v := by
  unfold ip_pattern_core specQuad
  generalize str_split v '.' = parts
  match parts with
  | [] => rfl
  | [a] => simp [specOctet]
  | [a, b] => simp
  | [a, b, c] => simp
  | [a, b, c, d] =>
    rw [Bool.eq_iff_iff]
    simp [Bool.and_eq_true, and_assoc]
    exact and_congr (matchOctet_iff_specOctet a.data)
      (and_congr (matchOctet_iff_specOctet b.data)
        (and_congr (matchOctet_iff_specOctet c.data)
          (matchOctet_iff_specOctet d.data)))
  | a :: b :: c :: d :: e :: rest => simp

/-- C2: the startup path creates exactly one handle per registered task, in
the order of the registered list: the handle list has the same length and
its i-th element is the spawned handle of the i-th task, with no partial
registration. -/
theorem lifespan_startup_one_handle_per_task
    (background_tasks : List BackgroundTask) :
    (lifespanStartup background_tasks).length = background_tasks.length ∧
    ∀ i : Nat, (lifespanStartup background_tasks)[i]? =
      (background_tasks[i]?).map create_task := by
  refine ⟨List.length_map _ _, fun i => ?_⟩
  simp [lifespanStartup]

/-- C1: the shutdown path requests cancellation of every handle before
waiting, and the wait always returns the full list of terminal outcomes,
one per handle, as a success: an individual task's raised error never
propagates as a failure of the shutdown wait itself. -/
theorem lifespan_shutdown_cancels_all_and_wait_never_fails
    (env : Nat → TaskOutcome) (task_handles : List TaskHandle) :
    ((lifespanShutdown env task_handles).1.all
      (fun h => h.cancelRequested)) = true ∧
    ∃ outcomes : List TaskOutcome,
      (lifespanShutdown env task_handles).2 = Except.ok outcomes ∧
      outcomes.length = task_handles.length := by
  constructor
  · simp [lifespanShutdown, cancelHandle]
  · exact ⟨_, rfl, by simp [lifespanShutdown]⟩

/-- The anchored ip_pattern matches exactly the spec quads, allowing one
trailing newline through the dollar anchor. -/
theorem ip_pattern_match_eq (v : String) :
    ip_pattern_match v =
      (specQuad v ||
       ((v.data.getLast? == some '\n') && specQuad (dropLastChar v))) := by
  unfold ip_pattern_match
  rw [ip_pattern_core_eq, ip_pattern_core_eq]

/-- C5 counterexample: the dollar anchor of Python's re also matches just
before a trailing newline, so both host validators accept the string
1.2.3.4 followed by a newline, which is neither a whitelisted host nor an
IPv4 dotted quad: the claimed accept/reject boundary is wrong. -/
theorem validate_host_newline_counterexample :
    MainConfig.validate_host "1.2.3.4\n" = Except.ok "1.2.3.4\n" ∧
    FastApiConfig.validate_host "1.2.3.4\n" = Except.ok "1.2.3.4\n" ∧
    specHostOk "1.2.3.4\n" = false :=
  ⟨rfl, rfl, rfl⟩

/-- C5 amended: both host validators accept a string, returning it
unchanged, exactly when it is a whitelisted loopback address, 0.0.0.0, or
an IPv4 dotted quad of four octets each in 0-255 optionally followed by
one trailing newline (accepted by the dollar anchor of Python's re);
every other string makes the validator raise, so configuration
construction fails. -/
theorem validate_host_accepts_iff_newline (v : String) :
    (MainConfig.validate_host v = Except.ok v ↔ specHostOkNewline v = true) ∧
    (FastApiConfig.validate_host v = Except.ok v ↔ specHostOkNewline v = true) ∧
    ((∃ e, MainConfig.validate_host v = Except.error e) ↔
      specHostOkNewline v = false) ∧
    ((∃ e, FastApiConfig.validate_host v = Except.error e) ↔
      specHostOkNewline v = false) := by
  have hip := ip_pattern_match_eq v
  by_cases hw : v ∈ valid_hosts <;>
    by_cases hm : ip_pattern_match v = true <;>
      simp [MainConfig.validate_host, FastApiConfig.validate_host,
        specHostOkNewline, hw, hm, ← hip, Bool.not_eq_true] at *

/-- C3: validate_production treats the string false as truthy in any
letter case: whenever the lowercased input is the word false the validator
returns the boolean True, exactly as it does for true, 1, yes, on and no. -/
theorem validate_production_accepts_false_as_truthy :
    (∀ s : String, str_lower s = "false" →
      MainConfig.validate_production (.pystr s) = true) ∧
    MainConfig.validate_production (.pystr "true") = true ∧
    MainConfig.validate_production (.pystr "1") = true ∧
    MainConfig.validate_production (.pystr "yes") = true ∧
    MainConfig.validate_production (.pystr "on") = true ∧
    MainConfig.validate_production (.pystr "no") = true := by
  refine ⟨fun s h => ?_, by decide, by decide, by decide, by decide, by decide⟩
  simp [MainConfig.validate_production, h]

/-- C3 witness: the mixed-case string FaLsE lowercases to false and the
production validator maps it to True. -/
theorem validate_production_accepts_false_witness :
    str_lower "FaLsE" = "false" ∧
    MainConfig.validate_production (.pystr "FaLsE") = true :=
  ⟨by decide, validate_production_accepts_false_as_truthy.1 "FaLsE" (by decide)⟩

/-- C7: MainConfig.validate_log_level accepts exactly the strings whose
lowercase form is a valid level and returns that lowercase form, and
FastApiConfig.validate_log_level accepts exactly the strings whose
uppercase form is a valid level and returns that uppercase form; every
other string makes the validator raise. -/
theorem validate_log_level_normalizes (v : String) :
    (MainConfig.validate_log_level v = Except.ok (str_lower v) ↔
      MainConfig.valid_levels.contains (str_lower v) = true) ∧
    ((∃ e, MainConfig.validate_log_level v = Except.error e) ↔
      MainConfig.valid_levels.contains (str_lower v) = false) ∧
    (FastApiConfig.validate_log_level v = Except.ok (str_upper v) ↔
      FastApiConfig.fastapi_valid_levels.contains (str_upper v) = true) ∧
    ((∃ e, FastApiConfig.validate_log_level v = Except.error e) ↔
      FastApiConfig.fastapi_valid_levels.contains (str_upper v) = false) := by
  by_cases hl : MainConfig.valid_levels.contains (str_lower v) = true <;>
    by_cases hu : FastApiConfig.fastapi_valid_levels.contains (str_upper v) = true <;>
      simp_all [MainConfig.validate_log_level, FastApiConfig.validate_log_level]

/-- C9: get_config is a singleton: the first call runs the constructor and
stores its result, a call with a stored instance returns exactly that
instance with the state unchanged and independently of the constructor,
and a second call after any call returns what the first call returned. -/
theorem get_config_singleton (mk : Unit → FastApiConfig)
    (state : Option FastApiConfig) :
    FastApiSetup.get_config mk none = (mk (), some (mk ())) ∧
    (∀ c, FastApiSetup.get_config mk (some c) = (c, some c)) ∧
    (∀ mk2 c, FastApiSetup.get_config mk (some c) =
      FastApiSetup.get_config mk2 (some c)) ∧
    FastApiSetup.get_config mk ((FastApiSetup.get_config mk state).2) =
      ((FastApiSetup.get_config mk state).1,
       (FastApiSetup.get_config mk state).2) := by
  refine ⟨rfl, fun c => rfl, fun mk2 c => rfl, ?_⟩
  cases state <;> rfl

/-- C6: validate_cors_origins accepts exactly the wildcard and the strings
all of whose comma-separated entries, once stripped, start with http:// or
https://; any other string makes it raise, failing construction. -/
theorem validate_cors_origins_accepts_iff (v : String) :
    ((∃ w, FastApiConfig.validate_cors_origins v = Except.ok w) ↔
      ((v == "*") = true ∨
        ((str_split v ',').all
          (fun origin => str_starts_with (str_strip origin) "http://" ||
            str_starts_with (str_strip origin) "https://")) = true)) ∧
    ((∃ e, FastApiConfig.validate_cors_origins v = Except.error e) ↔
      ((v == "*") = false ∧
        ((str_split v ',').all
          (fun origin => str_starts_with (str_strip origin) "http://" ||
            str_starts_with (str_strip origin) "https://")) = false)) := by
  by_cases hv : (v == "*") = true
  · simp [FastApiConfig.validate_cors_origins, hv]
  · have hv2 : (v == "*") = false := Bool.eq_false_iff.mpr hv
    have key : ((((str_split v ',').map (fun origin => str_strip origin)).find?
        (fun origin =>
          !(str_starts_with origin "http://" ||
            str_starts_with origin "https://"))) = none) ↔
        ((str_split v ',').all
          (fun origin => str_starts_with (str_strip origin) "http://" ||
            str_starts_with (str_strip origin) "https://")) = true := by
      rw [List.find?_eq_none]
      simp only [List.all_eq_true, List.mem_map, Bool.not_eq_true,
        Bool.or_eq_true, forall_exists_index, and_imp,
        forall_apply_eq_imp_iff₂, Bool.not_eq_true']
      refine forall₂_congr fun a ha => ?_
      cases str_starts_with (str_strip a) "http://" <;> simp
    cases hfind : (((str_split v ',').map (fun origin => str_strip origin)).find?
        (fun origin =>
          !(str_starts_with origin "http://" ||
            str_starts_with origin "https://"))) with
    | none =>
      have hall := key.mp hfind
      simp only [FastApiConfig.validate_cors_origins, hfind]
      simp [hv2, hall]
    | some o =>
      have hall : ¬ ((str_split v ',').all
          (fun origin => str_starts_with (str_strip origin) "http://" ||
            str_starts_with (str_strip origin) "https://")) = true := by
        intro h
        rw [key.mpr h] at hfind
        exact Option.noConfusion hfind
      simp only [FastApiConfig.validate_cors_origins, hfind]
      simp [hv2, Bool.eq_false_iff.mpr hall]

/-- C8: validate_server_title accepts exactly the strings that are
non-empty after stripping whitespace and whose stripped form contains none
of the invalid characters; every other string makes it raise. -/
theorem validate_server_title_accepts_iff (v : String) :
    ((∃ w, FastApiConfig.validate_server_title v = Except.ok w) ↔
      ((str_strip v == "") = false ∧
       (FastApiConfig.invalid_chars.any
         (fun c => str_contains (str_strip v) c)) = false)) ∧
    ((∃ e, FastApiConfig.validate_server_title v = Except.error e) ↔
      ((str_strip v == "") = true ∨
       (FastApiConfig.invalid_chars.any
         (fun c => str_contains (str_strip v) c)) = true)) := by
  by_cases h0 : (v == "") = true
  · have hv : v = "" := eq_of_beq h0
    subst hv
    have hs : str_strip ("" : String) = "" := rfl
    simp [FastApiConfig.validate_server_title, hs]
  · by_cases h1 : (str_strip v == "") = true
    · simp [FastApiConfig.validate_server_title, h0, h1]
    · by_cases h2 : (FastApiConfig.invalid_chars.any
          (fun c => str_contains (str_strip v) c)) = true <;>
        simp [FastApiConfig.validate_server_title, h0, h1, h2]

/-- C10: when validate_cors_origins accepts a value it returns the input
string unchanged (the trimming used during checking is not reflected in the
stored value), and for a non-wildcard value app_create later splits that
untrimmed string on commas, so the origins handed to the CORS middleware
keep any surrounding whitespace. -/
theorem cors_origins_stored_untrimmed (v w : String)
    (hok : FastApiConfig.validate_cors_origins v = Except.ok w) :
    w = v ∧
    ∀ config : FastApiConfig, config.CORS_ORIGINS = v → (v == "*") = false →
      (FastApiSetup.app_create config).cors.allow_origins = str_split v ',' := by
  constructor
  · unfold FastApiConfig.validate_cors_origins at hok
    by_cases hv : (v == "*") = true
    · simp [hv] at hok
      exact hok.symm
    · simp only [hv, Bool.false_eq_true, if_false] at hok
      split at hok
      · exact Except.noConfusion hok
      · exact (Except.ok.inj hok).symm
  · intro config hc hv
    simp [FastApiSetup.app_create, hc, hv]

/-- C10 witness: the accepted value http://a, http://b is stored verbatim
and app_create passes the second origin with its leading space intact. -/
theorem cors_origins_stored_untrimmed_witness :
    FastApiConfig.validate_cors_origins "http://a, http://b" =
      Except.ok "http://a, http://b" ∧
    (FastApiSetup.app_create
      { SERVER_TITLE := "python_server"
        DESCRIPTION := "Fast api description"
        VERSION := "1.0.0"
        HOST := "0.0.0.0"
        PORT := 8000
        CORS_ORIGINS := "http://a, http://b"
        FASTAPI_LOG_LEVEL := "INFO" }).cors.allow_origins =
      ["http://a", " http://b"] := by
  have h := cors_origins_stored_untrimmed "http://a, http://b"
    "http://a, http://b" (by rfl)
  refine ⟨by rfl, ?_⟩
  rw [h.2 _ rfl (by decide)]
  decide

/-- C4 counterexample: with the wildcard CORS configuration, PATCH is an
HTTP method, yet the CORS policy of the application app_create builds does
not allow it, so the application does not allow all methods. -/
theorem app_create_wildcard_patch_not_allowed :
    allHttpMethods.contains "PATCH" = true ∧
    (FastApiSetup.app_create
      { SERVER_TITLE := "python_server"
        DESCRIPTION := "Fast api description"
        VERSION := "1.0.0"
        HOST := "0.0.0.0"
        PORT := 8000
        CORS_ORIGINS := "*"
        FASTAPI_LOG_LEVEL := "INFO" }).cors.allowsMethod "PATCH" = false := by
  exact ⟨rfl, rfl⟩

/-- C4 amended: when the configuration has the wildcard CORS_ORIGINS, the
application app_create builds allows every origin, but allows only the
five methods GET, POST, PUT, DELETE, OPTIONS, not all HTTP methods. -/
theorem app_create_wildcard_origins_and_methods (config : FastApiConfig)
    (h : config.CORS_ORIGINS = "*") :
    (∀ origin, (FastApiSetup.app_create config).cors.allowsOrigin origin = true) ∧
    (FastApiSetup.app_create config).cors.allow_origins = ["*"] ∧
    (FastApiSetup.app_create config).cors.allow_methods =
      ["GET", "POST", "PUT", "DELETE", "OPTIONS"] ∧
    (∀ m, (FastApiSetup.app_create config).cors.allowsMethod m =
      ["GET", "POST", "PUT", "DELETE", "OPTIONS"].contains m) := by
  refine ⟨fun origin => ?_, ?_, ?_, fun m => ?_⟩ <;>
    simp [FastApiSetup.app_create, h, CORSSettings.allowsOrigin,
      CORSSettings.allowsMethod]

/-- C4 witness: on a concrete wildcard configuration the application
allows an arbitrary origin and carries the five-method list. -/
theorem app_create_wildcard_origins_and_methods_witness :
    (FastApiSetup.app_create
      { SERVER_TITLE := "python_server"
        DESCRIPTION := "Fast api description"
        VERSION := "1.0.0"
        HOST := "0.0.0.0"
        PORT := 8000
        CORS_ORIGINS := "*"
        FASTAPI_LOG_LEVEL := "INFO" }).cors.allowsOrigin
      "http://example.com" = true ∧
    (FastApiSetup.app_create
      { SERVER_TITLE := "python_server"
        DESCRIPTION := "Fast api description"
        VERSION := "1.0.0"
        HOST := "0.0.0.0"
        PORT := 8000
        CORS_ORIGINS := "*"
        FASTAPI_LOG_LEVEL := "INFO" }).cors.allow_methods =
      ["GET", "POST", "PUT", "DELETE", "OPTIONS"] := by
  have h := app_create_wildcard_origins_and_methods
    { SERVER_TITLE := "python_server"
      DESCRIPTION := "Fast api description"
      VERSION := "1.0.0"
      HOST := "0.0.0.0"
      PORT := 8000
      CORS_ORIGINS := "*"
      FASTAPI_LOG_LEVEL := "INFO" } rfl
  exact ⟨h.1 "http://example.com", h.2.2.1⟩
